import Mathlib

/-!
Verification development for the Lyric-Chord-Composer print/layout engine.

The definitions below are shallow embeddings of the TypeScript sources:
  * `src/services/printService/index.ts` (noteRenderer content:
    `getChordNotes`, `getNoteYPosition`, `generateNotesHtml`,
    `generateTablatureHtml`)
  * `src/components/PrintDialog.tsx` (StaffNotes content:
    `getChordNotesVexFlow`, `getFifth`, `formatNoteForVexFlow`,
    the per-measure duration-inference loop, the measure width formulas)
  * `src/services/printService/htmlTemplates.ts` (first version:
    `generatePrintHtml` and its helpers)
  * `src/services/printService/chordSvgGenerator.ts`
    (`generateChordSvg`, `getUsedChords`)

External JavaScript libraries (`@tonaljs` `Chord.get` / `Note.midi`,
the JSON parser) are modelled as explicit function parameters: the
embedded code is a pure function of the input plus those parameters,
mirroring the "opaque external service" treatment in the specification.

JavaScript numbers are modelled by `ℚ` (the layout arithmetic is exact
decimal arithmetic well inside double precision; division by zero, which
JS maps to ±Infinity/NaN, is flagged in comments where it can occur).
Decimal formatting of numbers into SVG/HTML strings is abstracted by
`numStr`; no theorem below depends on the textual form of a number.
-/

namespace LCC

/-! ### JavaScript string primitives -/

/-- JS `\s` whitespace class (restricted to the ASCII whitespace that the
repository's data can contain). -/
def isWs (c : Char) : Bool :=
  c = ' ' || c = '\t' || c = '\n' || c = '\r'

def lowerChars (l : List Char) : List Char := l.map Char.toLower

def upperChars (l : List Char) : List Char := l.map Char.toUpper

/-- JS `String.prototype.trim`. -/
def jsTrimChars (l : List Char) : List Char :=
  ((l.dropWhile isWs).reverse.dropWhile isWs).reverse

def jsTrim (s : String) : String := ⟨jsTrimChars s.data⟩

/-- Match `\s*pat` (case-insensitively) at the head of `l`; on success
return the remainder after the match.  Because `pat` starts with a
non-whitespace character, the greedy `\s*` of the JS regex is equivalent
to consuming the maximal whitespace run. -/
def wsPatMatch (pat : List Char) (l : List Char) : Option (List Char) :=
  let rest := l.dropWhile isWs
  if lowerChars (rest.take pat.length) = lowerChars pat && pat.length ≤ rest.length then
    some (rest.drop pat.length)
  else
    none

/-- One global, left-to-right pass of `.replace(/\s*PAT/gi, '')`. -/
def scrubAux (pat : List Char) : ℕ → List Char → List Char
  | 0, l => l
  | _ + 1, [] => []
  | fuel + 1, c :: cs =>
    match wsPatMatch pat (c :: cs) with
    | some rest => scrubAux pat fuel rest
    | none => c :: scrubAux pat fuel cs

/-- `.replace(/\s*PAT/gi, '')` with `PAT` a literal like `(easy)`. -/
def scrub (pat : String) (l : List Char) : List Char :=
  scrubAux pat.data l.length l

/-- `.replace(/\s+WORD$/i, repl)`: if the string ends in at least one
whitespace character followed (case-insensitively) by `word`, drop that
suffix and append `repl`. -/
def stripSuffixWordCI (word : String) (repl : String) (l : List Char) : List Char :=
  let r := l.reverse
  let w := (lowerChars word.data).reverse
  if lowerChars (r.take w.length) = w then
    let r2 := r.drop w.length
    if (r2.takeWhile isWs).length ≠ 0 then
      (r2.dropWhile isWs).reverse ++ repl.data
    else l
  else l

/-- `.replace(/\s+/g, '')`. -/
def removeWs (l : List Char) : List Char := l.filter (fun c => !isWs c)

/-- Sequential `.replace(/X/g, Y)` where `X` is a single character and the
replacement introduces no further occurrences of any pattern character
(the situation in `escapeHtml` / `escapeXml`). -/
def replaceAllChar (x : Char) (repl : List Char) : List Char → List Char
  | [] => []
  | c :: cs => (if c = x then repl else [c]) ++ replaceAllChar x repl cs

/-- JS `'str'.replace(c, r)` with a *string* first argument: replaces only
the first occurrence. -/
def replaceFirstChar (x : Char) (r : Char) : List Char → List Char
  | [] => []
  | c :: cs => if c = x then r :: cs else c :: replaceFirstChar x r cs

/-- Abstract rendering of a JS number into decimal text.  Exact for
integers; non-integral rationals are printed as fractions, which differs
textually from JS float printing — no theorem in this file depends on
this textual form. -/
def numStr (q : ℚ) : String :=
  if q.den = 1 then toString q.num else toString q.num ++ "/" ++ toString q.den

def joinList (l : List String) : String := String.join l

/-! ### Chord resolver of `PrintDialog.tsx` (`getChordNotesVexFlow`)

`Tonal.Chord.get` is the external `@tonaljs` lookup; it is passed in as
`tonal : String → List String` returning the chord's note names (the
`.notes` field, `[]` when the library cannot parse the name). -/

/-- `getFifth` (PrintDialog.tsx lines 269–279): hardcoded perfect-fifth
table, JS object lookup with `|| 'E'` fallback. -/
def getFifth (root : String) : String :=
  let fifths : List (String × String) :=
    [("C", "G"), ("C#", "G#"), ("Db", "Ab"),
     ("D", "A"), ("D#", "A#"), ("Eb", "Bb"),
     ("E", "B"), ("F", "C"), ("F#", "C#"),
     ("Gb", "Db"), ("G", "D"), ("G#", "D#"),
     ("Ab", "Eb"), ("A", "E"), ("A#", "E#"),
     ("Bb", "F"), ("B", "F#")]
  match fifths.lookup root with
  | some f => f
  | none => "E"

/-- `formatNoteForVexFlow`: lowercase, then `.replace('♯','#')` and
`.replace('♭','b')` (first occurrence each), then `/octave`. -/
def formatNoteForVexFlow (noteName : String) (octave : ℕ) : String :=
  ⟨replaceFirstChar '♭' 'b' (replaceFirstChar '♯' '#' (lowerChars noteName.data))⟩
    ++ "/" ++ toString octave

def isRootLetter (c : Char) : Bool :=
  let lc := c.toLower
  'a' ≤ lc && lc ≤ 'g'

/-- `cleanName.match(/^([A-G][#b]?)/i)` followed by `.toUpperCase()` on the
captured group.  Note the `i` flag also applies to the accidental class,
so `b` and `B` both match; the capture is then uppercased, which turns a
flat spelling like `Eb` into `EB`. -/
def rootMatchUpper (l : List Char) : Option (List Char) :=
  match l with
  | [] => none
  | c :: rest =>
    if isRootLetter c then
      match rest with
      | a :: _ => if a = '#' || a.toLower = 'b'
                  then some (upperChars [c, a]) else some (upperChars [c])
      | [] => some (upperChars [c])
    else none

/-- `/^[A-G][#b]?5$/.test(tonalName)` — case-sensitive (no `i` flag). -/
def powerChordTest (l : List Char) : Bool :=
  match l with
  | [c, f] => ('A' ≤ c && c ≤ 'G') && f = '5'
  | [c, a, f] => ('A' ≤ c && c ≤ 'G') && (a = '#' || a = 'b') && f = '5'
  | _ => false

/-- The `cleanName` pipeline of `getChordNotesVexFlow` (strip parenthetical
annotations, then trim). -/
def cleanNameVex (s : String) : List Char :=
  jsTrimChars (scrub "(alt)" (scrub "(barre)" (scrub "(easy)" s.data)))

/-- The `tonalName` normalization: drop a trailing " major", turn a
trailing " minor" into "m", drop remaining whitespace. -/
def tonalNameOf (clean : List Char) : List Char :=
  removeWs (stripSuffixWordCI "minor" "m" (stripSuffixWordCI "major" "" clean))

/-- `getChordNotesVexFlow` (PrintDialog.tsx lines 206–264).  Pure function
of the input name and the external `tonal` lookup; the TS `try/catch`
cannot fire in this model (every step is total), matching the
"never raises" contract. -/
def getChordNotesVexFlow (tonal : String → List String) (chordName : String) :
    List String :=
  if chordName = "" ∨ jsTrim chordName = "" ∨ chordName = "-" then []
  else
    let clean := cleanNameVex chordName
    let root? := rootMatchUpper clean
    let tonalName : String := ⟨tonalNameOf clean⟩
    let notes1 := tonal tonalName
    if notes1.length = 0 then
      match root? with
      | some rootChars =>
        let root : String := ⟨rootChars⟩
        if powerChordTest (tonalNameOf clean) then
          [formatNoteForVexFlow root 3, formatNoteForVexFlow (getFifth root) 3]
        else
          let notes2 := tonal root
          if notes2.length = 0 then [formatNoteForVexFlow root 4]
          else (notes2.take 4).map (formatNoteForVexFlow · 4)
      | none => []
    else (notes1.take 4).map (formatNoteForVexFlow · 4)

/-! ### Chord resolver of `printService` (`getChordNotes` in the
noteRenderer).  `Note.midi` of `@tonaljs` is the external parameter
`midi : String → Option ℤ` (`none` models a `null` return). -/

inductive Accidental | sharp | flat | natural
deriving DecidableEq, Repr

structure StaffNote where
  pitch : String
  midiNote : ℤ
  accidental : Option Accidental
deriving DecidableEq, Repr

/-- JS `String.prototype.includes`. -/
def charsContain (sub : List Char) (l : List Char) : Bool := decide (sub <:+: l)

/-- `noteToStaffNote` (noteRenderer).  `Note.midi(fullNote) || 60`: the JS
`||` also replaces a `0` result by 60. -/
def noteToStaffNote (midi : String → Option ℤ) (noteName : String) (octave : ℕ) :
    StaffNote :=
  let fullNote :=
    if charsContain (toString octave).data noteName.data then noteName
    else noteName ++ toString octave
  let m : ℤ :=
    match midi fullNote with
    | some v => if v = 0 then 60 else v
    | none => 60
  let accidental : Option Accidental :=
    if charsContain ['#'] noteName.data then some .sharp
    else if charsContain ['b'] noteName.data then some .flat
    else none
  ⟨fullNote, m, accidental⟩

/-- `cleanName` pipeline of the noteRenderer `getChordNotes` (no `(alt)`
strip, quality suffixes handled before the final trim, no whitespace
removal). -/
def cleanNamePrint (s : String) : List Char :=
  jsTrimChars (stripSuffixWordCI "minor" "m" (stripSuffixWordCI "major" ""
    (scrub "(barre)" (scrub "(easy)" s.data))))

/-- `getChordNotes` (noteRenderer lines 89–131). -/
def getChordNotes (tonal : String → List String) (midi : String → Option ℤ)
    (chordName : String) : List StaffNote :=
  if chordName = "" ∨ jsTrim chordName = "" ∨ chordName = "-" then []
  else
    let clean := cleanNamePrint chordName
    let notes1 := tonal ⟨clean⟩
    if notes1.length = 0 then
      match rootMatchUpper clean with
      | some rootChars =>
        let root : String := ⟨rootChars⟩
        let notes2 := tonal root
        if notes2.length = 0 then [noteToStaffNote midi root 4]
        else (notes2.take 3).map (fun n => noteToStaffNote midi n 4)
      | none => []
    else (notes1.take 3).map (fun n => noteToStaffNote midi n 4)

/-! ### Staff Y positions (`getNoteYPosition`, noteRenderer lines 159–197) -/

/-- The `staffPositions` table (diatonic step of each pitch class). -/
def staffPositions (noteInOctave : ℤ) : ℤ :=
  match noteInOctave.toNat with
  | 0 => 0 | 1 => 0 | 2 => 1 | 3 => 1 | 4 => 2 | 5 => 3
  | 6 => 3 | 7 => 4 | 8 => 4 | 9 => 5 | 10 => 5 | _ => 6

/-- `getNoteYPosition(midiNote, staffHeight)`.  `%`/`Math.floor` on the
(always nonnegative) MIDI number are `Int.emod`/`Int.fdiv`. -/
def getNoteYPosition (midiNote : ℤ) (staffHeight : ℚ) : ℚ :=
  let noteInOctave := midiNote.emod 12
  let octave := midiNote.fdiv 12 - 1
  let notePosition := staffPositions noteInOctave
  let octaveDiff := octave - 4
  let stepsFromE4 : ℤ := (notePosition - 2) + octaveDiff * 7
  let lineSpacing := staffHeight / 4
  let bottomLineY := staffHeight - 2
  let yPosition := bottomLineY - (stepsFromE4 : ℚ) * (lineSpacing / 2)
  max (-10) (min (staffHeight + 10) yPosition)

/-! ### Staff renderer (`generateNotesHtml`, noteRenderer lines 257–303) -/

/-- JS `Math.min(...)` over a spread list (only applied to non-empty
lists in the source; `[]` would be `Infinity` in JS). -/
def listMinQ : List ℚ → ℚ
  | [] => 0
  | x :: xs => xs.foldl min x

/-- `centerX = beatWidth * beatIndex + beatWidth / 2` with
`beatWidth = measureWidth / 4` — the staff renderer's horizontal beat
center. -/
def notesBeatCenterX (measureWidth : ℚ) (beatIndex : ℕ) : ℚ :=
  (measureWidth / 4) * (beatIndex : ℚ) + (measureWidth / 4) / 2

/-- The y coordinate used for every note head and for the stem top:
`getNoteYPosition(note.midiNote, staffHeight * 0.75) + staffHeight * 0.1`. -/
def noteYPosForRender (staffHeight : ℚ) (n : StaffNote) : ℚ :=
  getNoteYPosition n.midiNote (staffHeight * 0.75) + staffHeight * 0.1

def generateNotesHtml (tonal : String → List String) (midi : String → Option ℤ)
    (beatChords : List String) (measureWidth staffHeight : ℚ) : String :=
  let notesHtml := joinList (beatChords.enum.map (fun (p : ℕ × String) =>
    let beatIndex := p.1
    let chord := p.2
    if chord = "" ∨ jsTrim chord = "" then ""
    else
      let notes := getChordNotes tonal midi chord
      if notes.length = 0 then ""
      else
        let noteRadius := min (staffHeight / 12) 5
        let centerX := notesBeatCenterX measureWidth beatIndex
        let noteHeads := joinList ((notes.take 3).enum.map (fun (q : ℕ × StaffNote) =>
          let noteIndex := q.1
          let note := q.2
          let yPos := noteYPosForRender staffHeight note
          let xOffset := ((noteIndex : ℚ) - 1) * (noteRadius * 0.5)
          let x := centerX + xOffset
          let accidentalSvg :=
            match note.accidental with
            | some a =>
              let symbol := if a = Accidental.sharp then "#" else "♭"
              "<text x=\"" ++ numStr (x - noteRadius * 1.8) ++ "\" y=\"" ++
                numStr (yPos + 2) ++ "\" font-size=\"" ++ numStr (noteRadius * 1.2) ++
                "\" font-family=\"serif\" fill=\"#000\">" ++ symbol ++ "</text>"
            | none => ""
          accidentalSvg ++ "<ellipse cx=\"" ++ numStr x ++ "\" cy=\"" ++ numStr yPos ++
            "\" rx=\"" ++ numStr noteRadius ++ "\" ry=\"" ++ numStr (noteRadius * 0.65) ++
            "\" fill=\"#000\" transform=\"rotate(-15, " ++ numStr x ++ ", " ++
            numStr yPos ++ ")\" />"))
        let topNoteY := listMinQ ((notes.take 3).map (noteYPosForRender staffHeight))
        let stemX := centerX + noteRadius - 0.5
        let stemSvg := "<line x1=\"" ++ numStr stemX ++ "\" y1=\"" ++ numStr topNoteY ++
          "\" x2=\"" ++ numStr stemX ++ "\" y2=\"" ++
          numStr (topNoteY - staffHeight * 0.35) ++
          "\" stroke=\"#000\" stroke-width=\"1\" />"
        noteHeads ++ stemSvg))
  if notesHtml = "" then ""
  else
    "\n    <svg xmlns=\"http://www.w3.org/2000/svg\" width=\"100%\" height=\"100%\" viewBox=\"0 0 "
      ++ numStr measureWidth ++ " " ++ numStr staffHeight ++
      "\" preserveAspectRatio=\"xMidYMid meet\" style=\"position: absolute; top: 15%; left: 0; right: 0; bottom: 10%;\">\n      "
      ++ notesHtml ++ "\n    </svg>\n  "

/-! ### Tablature renderer (`generateTablatureHtml`, noteRenderer
lines 316–376) -/

structure ChordDataForTab where
  name : String
  fingering : List String
deriving DecidableEq, Repr

/-- String labels high-to-low: e B G D A E. -/
def stringLabels : List String := ["e", "B", "G", "D", "A", "E"]

/-- `beatX = labelWidth + (contentWidth / 4) * beatIndex +
(contentWidth / 4) / 2` with `labelWidth = 12`,
`contentWidth = measureWidth - labelWidth` — the tablature renderer's
horizontal beat position. -/
def tabBeatX (measureWidth : ℚ) (beatIndex : ℕ) : ℚ :=
  let labelWidth : ℚ := 12
  let contentWidth := measureWidth - labelWidth
  labelWidth + (contentWidth / 4) * (beatIndex : ℚ) + (contentWidth / 4) / 2

/-- `[...chord.fingering].reverse()` — the low-to-high stored fingering
reversed into top-to-bottom display order. -/
def displayFingeringOf (fingering : List String) : List String := fingering.reverse

/-- One fret cell: background rect plus the fret text at the
`stringIndex`-th drawn line from the top. -/
def tabFretCell (beatX stringSpacing : ℚ) (stringIndex : ℕ) (fret : String) : String :=
  let y := stringSpacing * (stringIndex : ℚ) + stringSpacing / 2 + 3
  let displayValue := if fret = "x" then "x" else fret
  let bgRect := "<rect x=\"" ++ numStr (beatX - 5) ++ "\" y=\"" ++ numStr (y - 8) ++
    "\" width=\"10\" height=\"10\" fill=\"none\" />"
  let text := "<text x=\"" ++ numStr beatX ++ "\" y=\"" ++ numStr y ++
    "\" font-size=\"8\" font-family=\"monospace\" font-weight=\"bold\" fill=\"#000\" text-anchor=\"middle\">"
    ++ displayValue ++ "</text>"
  bgRect ++ text

/-- The fret glyphs emitted for one beat (the body of the `fretNumbers`
map).  The TS `!chord.fingering` check cannot fire in this model because
`fingering` is a total field. -/
def tabBeatGlyphs (chordsData : List ChordDataForTab) (measureWidth stringSpacing : ℚ)
    (beatIndex : ℕ) (chordName : String) : String :=
  if chordName = "" ∨ jsTrim chordName = "" ∨ chordName = "-" then ""
  else
    match chordsData.find? (fun c => c.name = chordName) with
    | none => ""
    | some chord =>
      let beatX := tabBeatX measureWidth beatIndex
      let displayFingering := displayFingeringOf chord.fingering
      joinList (displayFingering.enum.map (fun (q : ℕ × String) =>
        tabFretCell beatX stringSpacing q.1 q.2))

def generateTablatureHtml (beatChords : List String) (chordsData : List ChordDataForTab)
    (measureWidth tabHeight : ℚ) : String :=
  let hasChords := beatChords.any (fun c => !(c = "" ∨ jsTrim c = "" ∨ c = "-" : Bool))
  if !hasChords then ""
  else
    -- the source also computes `beatWidth = measureWidth / 4` here, unused below
    let stringSpacing := tabHeight / 6
    let labelWidth : ℚ := 12
    let stringLines := joinList (stringLabels.enum.map (fun (p : ℕ × String) =>
      let y := stringSpacing * (p.1 : ℚ) + stringSpacing / 2
      "<line x1=\"" ++ numStr labelWidth ++ "\" y1=\"" ++ numStr y ++ "\" x2=\"" ++
        numStr measureWidth ++ "\" y2=\"" ++ numStr y ++
        "\" stroke=\"#999\" stroke-width=\"0.5\" />"))
    let labels := joinList (stringLabels.enum.map (fun (p : ℕ × String) =>
      let y := stringSpacing * (p.1 : ℚ) + stringSpacing / 2 + 3
      "<text x=\"2\" y=\"" ++ numStr y ++
        "\" font-size=\"7\" font-family=\"monospace\" font-weight=\"bold\" fill=\"#666\">"
        ++ p.2 ++ "</text>"))
    let fretNumbers := joinList (beatChords.enum.map (fun (p : ℕ × String) =>
      tabBeatGlyphs chordsData measureWidth stringSpacing p.1 p.2))
    "\n    <svg xmlns=\"http://www.w3.org/2000/svg\" width=\"100%\" height=\"" ++
      numStr tabHeight ++ "\" viewBox=\"0 0 " ++ numStr measureWidth ++ " " ++
      numStr tabHeight ++ "\" preserveAspectRatio=\"xMidYMid meet\" style=\"margin-top: 2px;\">\n      "
      ++ stringLines ++ "\n      " ++ labels ++ "\n      " ++ fretNumbers ++
      "\n    </svg>\n  "

/-! ### Measure geometry of the VexFlow staff
(`StaffNotes` in PrintDialog.tsx, lines 332–349) -/

def svTotalWidth (scaledWidth : ℚ) : ℚ := scaledWidth - 20

/-- `firstMeasureWidth = totalWidth / numMeasures + 40` (extra space for
clef/time signature). -/
def svFirstMeasureWidth (scaledWidth : ℚ) (numMeasures : ℕ) : ℚ :=
  svTotalWidth scaledWidth / (numMeasures : ℚ) + 40

/-- `otherMeasureWidth = (totalWidth - firstMeasureWidth) / (numMeasures - 1)`.
For `numMeasures = 1` the JS divisor is `0` (non-finite result); in ℚ
division by zero yields 0 — either way the code raises no error. -/
def svOtherMeasureWidth (scaledWidth : ℚ) (numMeasures : ℕ) : ℚ :=
  (svTotalWidth scaledWidth - svFirstMeasureWidth scaledWidth numMeasures) /
    ((numMeasures : ℚ) - 1)

/-- `(xPos, measureWidth)` for measure `m` of the render loop. -/
def svMeasureGeom (scaledWidth : ℚ) (numMeasures : ℕ) (m : ℕ) : ℚ × ℚ :=
  if m = 0 then (10, svFirstMeasureWidth scaledWidth numMeasures)
  else (10 + svFirstMeasureWidth scaledWidth numMeasures +
          ((m : ℚ) - 1) * svOtherMeasureWidth scaledWidth numMeasures,
        svOtherMeasureWidth scaledWidth numMeasures)

/-- The stave rectangles produced by `for (let m = 0; m < numMeasures; m++)`
in order.  The loop performs no input validation whatsoever. -/
def svStaves (scaledWidth : ℚ) (numMeasures : ℕ) : List (ℚ × ℚ) :=
  (List.range numMeasures).map (svMeasureGeom scaledWidth numMeasures)

/-! ### Duration inference (the per-measure note loop of `StaffNotes`,
PrintDialog.tsx lines 363–439) -/

/-- A tickable pushed into the measure's voice: a `StaveNote` with its
keys and VexFlow duration code, or an invisible `GhostNote`. -/
inductive VexEntry
  | note (keys : List String) (duration : String)
  | ghost (duration : String)
deriving DecidableEq, Repr

/-- The `noteDurations` map `{0:'q',1:'h',2:'hd',3:'w'}` (`emptyCount` is
clamped to ≤ 3 before each lookup, so the wildcard is only ever hit at 3). -/
def noteDurations : ℕ → String
  | 0 => "q" | 1 => "h" | 2 => "hd" | _ => "w"

/-- `beatChords[idx] || ''`. -/
def beatAt (beatChords : List String) (i : ℕ) : String := (beatChords.get? i).getD ""

/-- The emptiness test applied to each following beat:
`!nextChord || nextChord.trim() === '' || nextChord === '-'`. -/
def isEmptyBeatName (s : String) : Bool := s == "" || jsTrim s == "" || s == "-"

/-- `emptyCount`: consecutive empty beats after beat `b` within the same
4-beat measure (the inner `for (c = b+1; c < 4)` loop with `break`). -/
def emptyCountFrom (beatChords : List String) (startBeat b : ℕ) : ℕ :=
  (((List.range 4).drop (b + 1)).takeWhile
    (fun c => isEmptyBeatName (beatAt beatChords (startBeat + c)))).length

/-- One iteration of the `for (let b = 0; b < 4; b++)` loop.  The
accumulator carries (`processedBeats`, `notes`). -/
def renderMeasureStep (tonal : String → List String) (beatChords : List String)
    (startBeat : ℕ) (acc : List ℕ × List VexEntry) (b : ℕ) : List ℕ × List VexEntry :=
  if b ∈ acc.1 then acc
  else
    let chord := beatAt beatChords (startBeat + b)
    let chordNotes := getChordNotesVexFlow tonal chord
    let emptyCount := min (emptyCountFrom beatChords startBeat b) 3
    if chordNotes.length > 0 then
      (acc.1 ++ (List.range (emptyCount + 1)).map (b + ·),
       acc.2 ++ [VexEntry.note chordNotes (noteDurations emptyCount)])
    else
      (acc.1 ++ [b], acc.2 ++ [VexEntry.ghost "q"])

/-- The tickables created for one 4-beat measure. -/
def renderMeasureNotes (tonal : String → List String) (beatChords : List String)
    (startBeat : ℕ) : List VexEntry :=
  ((List.range 4).foldl (renderMeasureStep tonal beatChords startBeat) ([], [])).2

/-- Executable statement of the duration-inference property as amended
(the scan of spec §4.2 with the code's branching): scan the 4 beats
left to right; a beat whose chord name resolves to a non-empty pitch
list takes span `min(emptyRun, 3) + 1` where `emptyRun` counts the
immediately following beats with empty/whitespace/"-" names; every other
beat is an independent 1-beat ghost. -/
def specSpanScan (tonal : String → List String) (beatChords : List String)
    (startBeat : ℕ) (b : ℕ) : List VexEntry :=
  if h : b < 4 then
    let chordNotes := getChordNotesVexFlow tonal (beatAt beatChords (startBeat + b))
    if chordNotes.length > 0 then
      let k := min (emptyCountFrom beatChords startBeat b) 3
      VexEntry.note chordNotes (noteDurations k) ::
        specSpanScan tonal beatChords startBeat (b + k + 1)
    else
      VexEntry.ghost "q" :: specSpanScan tonal beatChords startBeat (b + 1)
  else []
termination_by 4 - b
decreasing_by all_goals omega

/-- Beat span of a VexFlow duration code. -/
def durationSpan : String → ℕ
  | "q" => 1 | "h" => 2 | "hd" => 3 | "w" => 4 | _ => 0

def entrySpan : VexEntry → ℕ
  | .note _ d => durationSpan d
  | .ghost d => durationSpan d

def totalSpan (l : List VexEntry) : ℕ := (l.map entrySpan).sum

/-! ### Data model (`models/Composition.ts`) and print options -/

structure TimeSignature where
  beats : ℕ
  beatValue : ℕ
deriving DecidableEq, Repr

structure GlobalSettings where
  key : String
  tempo : ℕ
  timeSignature : Option TimeSignature
  capo : Option ℕ
deriving DecidableEq, Repr

structure Composition where
  title : String
  artist : Option String
  globalSettings : GlobalSettings
  notes : Option String
deriving DecidableEq, Repr

structure PageData where
  barLyrics : List String
  barBeatChords : List (List String)
deriving DecidableEq, Repr

/-- `{ pages: PageData[] }` as produced by `JSON.parse`; `pages` is
`Option` because the parsed object may lack the field
(`parsed.pages || []`). -/
structure CompositionPages where
  pages : Option (List PageData)
deriving DecidableEq, Repr

inductive PageSize | letter | a4
deriving DecidableEq, Repr

inductive Orientation | portrait | landscape
deriving DecidableEq, Repr

def orientationStr : Orientation → String
  | .portrait => "portrait"
  | .landscape => "landscape"

structure PrintOptions where
  includeChordDiagrams : Bool
  includeTablature : Bool
  includeNotation : Bool
  pageSize : PageSize
  orientation : Orientation
deriving DecidableEq, Repr

/-! ### Chord diagram SVGs (`chordSvgGenerator.ts`) -/

structure ChordData where
  name : String
  startingFret : ℤ
  fingering : List String
  openStrings : List ℕ
  mutedStrings : List ℕ
  commonFingeringNotes : String
deriving DecidableEq, Repr

inductive ChordSize | small | medium | large
deriving DecidableEq, Repr

structure SvgDimensions where
  width : ℚ
  height : ℚ
  fretHeight : ℚ
  stringSpacing : ℚ
  topPadding : ℚ
  sidePadding : ℚ
  dotRadius : ℚ
  fontSize : ℚ
  indicatorSize : ℚ
deriving DecidableEq, Repr

def DIMENSIONS : ChordSize → SvgDimensions
  | .small => ⟨70, 90, 10, 8, 24, 10, 3, 9, 5⟩
  | .medium => ⟨90, 120, 16, 12, 24, 15, 5, 12, 7⟩
  | .large => ⟨140, 180, 24, 18, 32, 22, 7, 16, 10⟩

/-- JS `parseInt(s, 10)`; `none` models `NaN`. -/
def jsParseInt (s : String) : Option ℤ :=
  let l := s.data.dropWhile isWs
  let p : ℤ × List Char :=
    match l with
    | '-' :: rest => (-1, rest)
    | '+' :: rest => (1, rest)
    | _ => (1, l)
  let digits := p.2.takeWhile Char.isDigit
  if digits.length = 0 then none
  else some (p.1 * ((digits.foldl (fun acc c => acc * 10 + (c.toNat - 48)) 0 : ℕ) : ℤ))

/-- `escapeXml` (chordSvgGenerator.ts): the five sequential global
character replacements, in source order. -/
def escapeXml (text : String) : String :=
  ⟨replaceAllChar (Char.ofNat 39) "&apos;".data
   (replaceAllChar '"' "&quot;".data
    (replaceAllChar '>' "&gt;".data
     (replaceAllChar '<' "&lt;".data
      (replaceAllChar '&' "&amp;".data text.data))))⟩

/-- `generateChordSvg(chord, size)` (chordSvgGenerator.ts lines 71–137).
`NUM_STRINGS = 6`, `NUM_FRETS = 5`.  A `null` entry of `fingeringNums`
(muted) and a `NaN` (unparsable fret text) are conflated into `none`:
both are skipped by the `fretNum !== null && fretNum > 0` guard. -/
def generateChordSvg (chord : ChordData) (size : ChordSize) : String :=
  let dim := DIMENSIONS size
  let fingeringNums : List (Option ℤ) :=
    chord.fingering.map (fun f => if f = "x" then none else jsParseInt f)
  let gridWidth := dim.stringSpacing * 5
  let gridHeight := dim.fretHeight * 5
  let gridStartX := dim.sidePadding
  let gridStartY := dim.topPadding
  let svgOpen := "<svg xmlns=\"http://www.w3.org/2000/svg\" width=\"" ++ numStr dim.width ++
    "\" height=\"" ++ numStr dim.height ++ "\" viewBox=\"0 0 " ++ numStr dim.width ++
    " " ++ numStr dim.height ++ "\">"
  let bg := "<rect width=\"" ++ numStr dim.width ++ "\" height=\"" ++ numStr dim.height ++
    "\" fill=\"white\"/>"
  let nameText := chord.name ++
    (if chord.startingFret > 1 then " " ++ toString chord.startingFret ++ "fr" else "")
  let nameSvg := "<text x=\"" ++ numStr (dim.width / 2) ++ "\" y=\"" ++ numStr dim.fontSize ++
    "\" text-anchor=\"middle\" font-family=\"Arial, sans-serif\" font-size=\"" ++
    numStr dim.fontSize ++ "\" font-weight=\"bold\" fill=\"#333\">" ++
    escapeXml nameText ++ "</text>"
  let indicators := joinList ((List.range 6).map (fun (stringIdx : ℕ) =>
    let x := gridStartX + (stringIdx : ℚ) * dim.stringSpacing
    let y := gridStartY - dim.indicatorSize - 2
    if stringIdx ∈ chord.mutedStrings then
      let offset := dim.indicatorSize / 2
      "<line x1=\"" ++ numStr (x - offset) ++ "\" y1=\"" ++ numStr (y - offset) ++
        "\" x2=\"" ++ numStr (x + offset) ++ "\" y2=\"" ++ numStr (y + offset) ++
        "\" stroke=\"#333\" stroke-width=\"1.5\"/>" ++
      "<line x1=\"" ++ numStr (x + offset) ++ "\" y1=\"" ++ numStr (y - offset) ++
        "\" x2=\"" ++ numStr (x - offset) ++ "\" y2=\"" ++ numStr (y + offset) ++
        "\" stroke=\"#333\" stroke-width=\"1.5\"/>"
    else if stringIdx ∈ chord.openStrings then
      "<circle cx=\"" ++ numStr x ++ "\" cy=\"" ++ numStr y ++ "\" r=\"" ++
        numStr (dim.indicatorSize / 2) ++ "\" fill=\"none\" stroke=\"#333\" stroke-width=\"1.5\"/>"
    else ""))
  let nut :=
    if chord.startingFret ≤ 1 then
      "<rect x=\"" ++ numStr (gridStartX - 1) ++ "\" y=\"" ++ numStr gridStartY ++
        "\" width=\"" ++ numStr (gridWidth + 2) ++ "\" height=\"3\" fill=\"#333\"/>"
    else ""
  let fretLines := joinList ((List.range 6).map (fun (fret : ℕ) =>
    let y := gridStartY + (fret : ℚ) * dim.fretHeight
    "<line x1=\"" ++ numStr gridStartX ++ "\" y1=\"" ++ numStr y ++ "\" x2=\"" ++
      numStr (gridStartX + gridWidth) ++ "\" y2=\"" ++ numStr y ++
      "\" stroke=\"#333\" stroke-width=\"1\"/>"))
  let stringLines := joinList ((List.range 6).map (fun (stringIdx : ℕ) =>
    let x := gridStartX + (stringIdx : ℚ) * dim.stringSpacing
    "<line x1=\"" ++ numStr x ++ "\" y1=\"" ++ numStr gridStartY ++ "\" x2=\"" ++
      numStr x ++ "\" y2=\"" ++ numStr (gridStartY + gridHeight) ++
      "\" stroke=\"#333\" stroke-width=\"1\"/>"))
  let dots := joinList ((List.range 6).map (fun (stringIdx : ℕ) =>
    match (fingeringNums.get? stringIdx).getD none with
    | some fretNum =>
      if fretNum > 0 then
        let displayFret :=
          if chord.startingFret > 1 then fretNum - chord.startingFret + 1 else fretNum
        if 1 ≤ displayFret ∧ displayFret ≤ 5 then
          let x := gridStartX + (stringIdx : ℚ) * dim.stringSpacing
          let y := gridStartY + ((displayFret : ℚ) - 0.5) * dim.fretHeight
          "<circle cx=\"" ++ numStr x ++ "\" cy=\"" ++ numStr y ++ "\" r=\"" ++
            numStr dim.dotRadius ++ "\" fill=\"#333\"/>"
        else ""
      else ""
    | none => ""))
  svgOpen ++ bg ++ nameSvg ++ indicators ++ nut ++ fretLines ++ stringLines ++ dots ++ "</svg>"

/-- `getUsedChords` (chordSvgGenerator.ts lines 154–173): distinct
non-empty chord names in insertion order (JS `Set`), then looked up in
`chordsData` and filtered to the found ones. -/
def getUsedChords (pages : List PageData) (chordsData : List ChordData) : List ChordData :=
  let usedNames := pages.foldl (fun acc page =>
    page.barBeatChords.foldl (fun acc bar =>
      bar.foldl (fun acc chord =>
        if chord ≠ "" ∧ jsTrim chord ≠ "" then
          (if chord ∈ acc then acc else acc ++ [chord])
        else acc) acc) acc) []
  (usedNames.map (fun name => chordsData.find? (fun c => c.name = name))).filterMap id

/-! ### HTML templates (`htmlTemplates.ts`, the row-spanning version at
file lines 1–493) -/

/-- `escapeHtml` (htmlTemplates.ts): five sequential global character
replacements, in source order. -/
def escapeHtml (text : String) : String :=
  ⟨replaceAllChar (Char.ofNat 39) "&#039;".data
   (replaceAllChar '"' "&quot;".data
    (replaceAllChar '>' "&gt;".data
     (replaceAllChar '<' "&lt;".data
      (replaceAllChar '&' "&amp;".data text.data))))⟩

/-- `generatePrintStyles` (htmlTemplates.ts lines 69–349): the print CSS
with the page-size/orientation interpolation. -/
def generatePrintStyles (options : PrintOptions) : String :=
  "    * \x7b\n      margin: 0;\n      padding: 0;\n      box-sizing: border-box;\n    \x7d\n\n    html, body \x7b\n      font-family: Georgia, \x27Times New Roman\x27, serif;\n      color: #333;\n      background: white;\n    \x7d\n\n    body \x7b\n      padding: 0.5in;\n      font-size: 11pt;\n      line-height: 1.5;\n    \x7d\n\n    @media print \x7b\n      @page \x7b\n        size: "
  ++ (if options.pageSize = PageSize.a4 then "A4" else "letter")
  ++ " "
  ++ orientationStr options.orientation
  ++ ";\n        margin: 0.5in;\n      \x7d\n\n      .page-break \x7b\n        page-break-after: always;\n        margin-top: 0;\n      \x7d\n\n      .no-print \x7b\n        display: none;\n      \x7d\n    \x7d\n\n    /* Header Styles */\n    .header \x7b\n      display: flex;\n      justify-content: space-between;\n      align-items: flex-start;\n      margin-bottom: 0.3in;\n      border-bottom: none;\n      padding-bottom: 0.15in;\n    \x7d\n\n    .title \x7b\n      font-size: 20pt;\n      font-weight: bold;\n      line-height: 1.3;\n    \x7d\n\n    .artist \x7b\n      font-size: 12pt;\n      font-style: italic;\n      color: #666;\n      margin-top: 0.05in;\n    \x7d\n\n    .settings \x7b\n      display: flex;\n      flex-direction: column;\n      gap: 4pt;\n      font-size: 8pt;\n      color: #555;\n      text-align: right;\n    \x7d\n\n    .settings span \x7b\n      padding: 0;\n      background: transparent;\n      border: none;\n    \x7d\n\n    /* Chord Reference Section */\n    .chord-reference \x7b\n      margin: 10pt 0 0 0;\n      padding: 0;\n      background: transparent;\n      border: none;\n      page-break-inside: avoid;\n      page-break-after: avoid;\n    \x7d\n\n    .chord-reference-title \x7b\n      display: none;\n    \x7d\n\n    .chord-diagrams \x7b\n      display: flex;\n      flex-wrap: wrap;\n      gap: 0.15in;\n      justify-content: flex-start;\n      align-items: flex-start;\n      margin-bottom: 10pt;\n    \x7d\n\n    .chord-diagram-item \x7b\n      display: flex;\n      flex-direction: column;\n      align-items: center;\n    \x7d\n\n    .chord-diagram-item svg \x7b\n      display: block;\n      width: 60px;\n      height: auto;\n    \x7d\n\n    .chord-reference-placeholder \x7b\n      display: none;\n    \x7d\n\n    /* Pages Container */\n    .pages-container \x7b\n      margin-top: 0.2in;\n    \x7d\n\n    /* Sheet Page - Natural flow, no fixed height */\n    .sheet-page \x7b\n      margin-bottom: 0.3in;\n      page-break-inside: avoid;\n    \x7d\n\n    .page-header \x7b\n      font-size: 8pt;\n      color: #999;\n      text-align: right;\n      margin-bottom: 0.1in;\n    \x7d\n\n    /* Bar Row - 4 bars across, natural height */\n    .bar-row \x7b\n      display: flex;\n      gap: 4pt;\n      margin-bottom: 6pt;\n      page-break-inside: avoid;\n    \x7d\n\n    /* Individual Bar */\n    .bar \x7b\n      flex: 1;\n      display: flex;\n      flex-direction: column;\n      min-width: 0;\n    \x7d\n\n    /* Lyrics */\n    .bar-lyrics \x7b\n      font-size: 11pt;\n      text-align: center;\n      margin-bottom: 2pt;\n      min-height: 12pt;\n      white-space: nowrap;\n      overflow: hidden;\n      text-overflow: ellipsis;\n      line-height: 1;\n    \x7d\n\n    /* Chord Row */\n    .chord-row \x7b\n      display: flex;\n      gap: 1pt;\n      margin-bottom: 3pt;\n      justify-content: space-between;\n      min-height: 16pt;\n    \x7d\n\n    /* Chord Box */\n    .chord-box \x7b\n      flex: 1;\n      display: flex;\n      align-items: center;\n      justify-content: center;\n      font-size: 8pt;\n      font-weight: bold;\n      color: #000;\n      background: transparent;\n      border: none;\n      padding: 2pt;\n      line-height: 1;\n    \x7d\n\n    .chord-box.empty \x7b\n      visibility: hidden;\n    \x7d\n\n    /* Measure (Staff) */\n    .measure \x7b\n      flex: 1;\n      position: relative;\n      background: #fff;\n      border: none;\n      min-height: 45pt;\n      margin-bottom: 2pt;\n      page-break-inside: avoid;\n    \x7d\n\n    /* Staff Lines */\n    .staff-lines \x7b\n      position: absolute;\n      top: 20%;\n      left: 0;\n      right: 0;\n      height: 60%;\n      display: flex;\n      flex-direction: column;\n      justify-content: space-between;\n    \x7d\n\n    .staff-line \x7b\n      height: 0.5pt;\n      background: #333;\n    \x7d\n\n    /* Tablature */\n    .tablature \x7b\n      position: relative;\n      background: #fff;\n      border: none;\n      min-height: 18pt;\n      padding: 1pt 2pt;\n      font-family: \x27Courier New\x27, monospace;\n      font-size: 7pt;\n      line-height: 1.1;\n      page-break-inside: avoid;\n    \x7d\n\n    /* Empty Bar Styling */\n    .empty-bar .measure \x7b\n      background: #fff;\n    \x7d\n\n    .empty-bar .tablature \x7b\n      background: #fff;\n    \x7d\n\n    /* Row-spanning Containers */\n    .bars-container \x7b\n      display: flex;\n      gap: 4pt;\n      flex: 1;\n    \x7d\n\n    .row-tablature \x7b\n      width: 100%;\n      background: #fff;\n      border: none;\n      min-height: 65pt;\n      padding: 2pt;\n      font-family: \x27Courier New\x27, monospace;\n      font-size: 7pt;\n      line-height: 1.1;\n      page-break-inside: avoid;\n      margin-bottom: 4pt;\n    \x7d\n\n    .row-tablature svg \x7b\n      display: block;\n      width: 100%;\n      height: auto;\n    \x7d\n\n    .row-staff \x7b\n      width: 100%;\n      background: #fff;\n      border: none;\n      min-height: 85pt;\n      padding: 2pt;\n      position: relative;\n      page-break-inside: avoid;\n      margin-top: 4pt;\n    \x7d\n\n    .row-staff svg \x7b\n      display: block;\n      width: 100%;\n      height: auto;\n    \x7d"

/-- `generateHeaderHtml` (htmlTemplates.ts lines 354–374).  JS truthiness:
an empty `artist`, a zero `tempo`/`capo` and an empty `key` are falsy. -/
def generateHeaderHtml (composition : Composition) : String :=
  let settings := composition.globalSettings
  let timeSignature :=
    match settings.timeSignature with
    | some ts => toString ts.beats ++ "/" ++ toString ts.beatValue
    | none => "4/4"
  "\n    <div class=\"header\">\n      <div>\n        <div class=\"title\">" ++
    escapeHtml composition.title ++ "</div>\n        " ++
    (match composition.artist with
     | some a => if a = "" then "" else "<div class=\"artist\">" ++ escapeHtml a ++ "</div>"
     | none => "") ++
    "\n      </div>\n      <div class=\"settings\">\n        <span>Key: " ++
    escapeHtml (if settings.key = "" then "C" else settings.key) ++
    "</span>\n        <span>Tempo: " ++
    toString (if settings.tempo = 0 then 120 else settings.tempo) ++
    " BPM</span>\n        <span>Time: " ++ timeSignature ++ "</span>\n        " ++
    (match settings.capo with
     | some c => if c = 0 then "" else "<span>Capo: Fret " ++ toString c ++ "</span>"
     | none => "") ++
    "\n      </div>\n    </div>\n  "

/-- `generateChordReferenceHtml` (htmlTemplates.ts lines 379–396). -/
def generateChordReferenceHtml (chords : List ChordData) : String :=
  if chords.length = 0 then ""
  else
    let diagramsHtml := String.intercalate "\n" (chords.map (fun chord =>
      "<div class=\"chord-diagram-item\">" ++ generateChordSvg chord ChordSize.small ++ "</div>"))
    "\n    <div class=\"chord-reference\">\n      <div class=\"chord-reference-title\">Chords Used</div>\n      <div class=\"chord-diagrams\">\n        "
      ++ diagramsHtml ++ "\n      </div>\n    </div>\n  "

/-- Per-bar data collected in the first inner loop of `generatePageHtml`. -/
structure RowBarData where
  lyrics : String
  beatChords : List String
  hasChords : Bool
  hasLyrics : Bool
  isEmpty : Bool

/-- `generatePageHtml` (htmlTemplates.ts lines 401–481): 4 rows of 4 bars;
per row, one row-spanning staff SVG and one row-spanning tablature SVG
over the flattened 16 beat chords, then each bar with its lyric line and chord
boxes.  The `ChordData[]` records are passed to the tablature renderer by
TS structural typing; here the projection to `ChordDataForTab` is
explicit. -/
def generatePageHtml (tonal : String → List String) (midi : String → Option ℤ)
    (page : PageData) (pageNumber totalPages : ℕ) (chordsData : List ChordData)
    (options : PrintOptions) : String :=
  let barsHtml := (List.range 4).map (fun (rowIndex : ℕ) =>
    let rowBarsData := (List.range 4).map (fun (colIndex : ℕ) =>
      let barIndex := rowIndex * 4 + colIndex
      let lyrics := (page.barLyrics.get? barIndex).getD ""
      let beatChords := (page.barBeatChords.get? barIndex).getD ["", "", "", ""]
      let hasChords := beatChords.any (fun c => !(c = "" ∨ jsTrim c = "" : Bool))
      let hasLyrics := !(jsTrim lyrics = "" : Bool)
      let isEmpty := !hasChords && !hasLyrics
      RowBarData.mk lyrics beatChords hasChords hasLyrics isEmpty)
    let rowBeatChords := (rowBarsData.map RowBarData.beatChords).flatten
    let rowHasContent := rowBarsData.any (fun d => !d.isEmpty)
    let notesSvg :=
      if options.includeNotation && rowHasContent then
        generateNotesHtml tonal midi rowBeatChords 800 85
      else ""
    let tabSvg :=
      if options.includeTablature && rowHasContent then
        generateTablatureHtml rowBeatChords
          (chordsData.map (fun c => ChordDataForTab.mk c.name c.fingering)) 800 65
      else ""
    let rowHtmlOpen := "\n      <div class=\"bar-row\">\n        " ++
      (if options.includeTablature then "<div class=\"row-tablature\">" ++ tabSvg ++ "</div>" else "") ++
      "\n        <div class=\"bars-container\">\n    "
    let rowHtmlBars := joinList (rowBarsData.map (fun barData =>
      let chordBoxesHtml := joinList (barData.beatChords.map (fun chord =>
        let isEmpty := chord = "" ∨ jsTrim chord = ""
        "<div class=\"chord-box" ++ (if isEmpty then " empty" else "") ++ "\">" ++
          (if isEmpty then "" else escapeHtml chord) ++ "</div>"))
      "\n        <div class=\"bar" ++ (if barData.isEmpty then " empty-bar" else "") ++
        "\">\n          <div class=\"bar-lyrics\">" ++ escapeHtml barData.lyrics ++
        "</div>\n          <div class=\"chord-row\">" ++ chordBoxesHtml ++
        "</div>\n        </div>\n      "))
    let rowHtmlClose := "\n        </div>\n        " ++
      (if options.includeNotation then "<div class=\"row-staff\">" ++ notesSvg ++ "</div>" else "") ++
      "\n      </div>\n    "
    rowHtmlOpen ++ rowHtmlBars ++ rowHtmlClose)
  let pageBreak := if pageNumber < totalPages then " page-break" else ""
  "\n    <div class=\"sheet-page" ++ pageBreak ++ "\">\n      <div class=\"page-header\">Page "
    ++ toString pageNumber ++ " of " ++ toString totalPages ++ "</div>\n      " ++
    String.intercalate "\n" barsHtml ++ "\n    </div>\n  "

/-- The final document template literal of `generatePrintHtml`. -/
def printDocTemplate (title styles header chordReference pagesHtml : String) : String :=
  "<!DOCTYPE html>\n<html>\n<head>\n  <meta charset=\"UTF-8\">\n  <meta name=\"viewport\" content=\"width=device-width, initial-scale=1.0\">\n  <title>"
    ++ title ++ "</title>\n  <style>" ++ styles ++
    "</style>\n</head>\n<body>\n  " ++ header ++ "\n  " ++ chordReference ++
    "\n  <div class=\"pages-container\">\n    " ++ pagesHtml ++
    "\n  </div>\n</body>\n</html>"

/-- The `pages` fallback ladder at the top of `generatePrintHtml`
(htmlTemplates.ts lines 26–35): `if (composition.notes)` (absent or empty
string is falsy), `try JSON.parse` (`none` models a parse exception),
`parsed.pages || []`. -/
def parsePages (parseJson : String → Option CompositionPages)
    (notes : Option String) : List PageData :=
  match notes with
  | some s =>
    if s = "" then []
    else
      match parseJson s with
      | some parsed => parsed.pages.getD []
      | none => []
  | none => []

/-- `generatePrintHtml` (htmlTemplates.ts lines 21–63). -/
def generatePrintHtml (tonal : String → List String) (midi : String → Option ℤ)
    (parseJson : String → Option CompositionPages) (composition : Composition)
    (chordsData : List ChordData) (options : PrintOptions) : String :=
  let pages := parsePages parseJson composition.notes
  let usedChords := getUsedChords pages chordsData
  let styles := generatePrintStyles options
  let header := generateHeaderHtml composition
  let chordReference :=
    if options.includeChordDiagrams then generateChordReferenceHtml usedChords
    else "<div class=\"chord-reference-placeholder\"></div>"
  let pagesHtml := String.intercalate "\n" (pages.enum.map (fun (p : ℕ × PageData) =>
    generatePageHtml tonal midi p.2 (p.1 + 1) pages.length chordsData options))
  printDocTemplate (escapeHtml composition.title) styles header chordReference pagesHtml

/-! ## Theorems -/

set_option maxHeartbeats 2000000

theorem specSpanScan_stop (tonal : String → List String) (bs : List String) (sb b : ℕ)
    (h : ¬ b < 4) : specSpanScan tonal bs sb b = [] := by
  rw [specSpanScan, dif_neg h]

theorem specSpanScan_note (tonal : String → List String) (bs : List String) (sb b : ℕ)
    (h : b < 4) (hr : 0 < (getChordNotesVexFlow tonal (beatAt bs (sb + b))).length) :
    specSpanScan tonal bs sb b =
      VexEntry.note (getChordNotesVexFlow tonal (beatAt bs (sb + b)))
          (noteDurations (min (emptyCountFrom bs sb b) 3)) ::
        specSpanScan tonal bs sb (b + min (emptyCountFrom bs sb b) 3 + 1) := by
  rw [specSpanScan, dif_pos h]
  dsimp only
  rw [if_pos hr]

theorem specSpanScan_ghost (tonal : String → List String) (bs : List String) (sb b : ℕ)
    (h : b < 4) (hr : ¬ 0 < (getChordNotesVexFlow tonal (beatAt bs (sb + b))).length) :
    specSpanScan tonal bs sb b = VexEntry.ghost "q" :: specSpanScan tonal bs sb (b + 1) := by
  rw [specSpanScan, dif_pos h]
  dsimp only
  rw [if_neg hr]

theorem renderMeasureStep_skip (tonal : String → List String) (bs : List String)
    (sb : ℕ) (P : List ℕ) (es : List VexEntry) (b : ℕ) (h : b ∈ P) :
    renderMeasureStep tonal bs sb (P, es) b = (P, es) := by
  unfold renderMeasureStep
  rw [if_pos h]

theorem renderMeasureStep_note (tonal : String → List String) (bs : List String)
    (sb : ℕ) (P : List ℕ) (es : List VexEntry) (b : ℕ) (h : ¬ b ∈ P)
    (hr : 0 < (getChordNotesVexFlow tonal (beatAt bs (sb + b))).length) :
    renderMeasureStep tonal bs sb (P, es) b =
      (P ++ (List.range (min (emptyCountFrom bs sb b) 3 + 1)).map (b + ·),
       es ++ [VexEntry.note (getChordNotesVexFlow tonal (beatAt bs (sb + b)))
               (noteDurations (min (emptyCountFrom bs sb b) 3))]) := by
  unfold renderMeasureStep
  rw [if_neg h]
  dsimp only
  rw [if_pos hr]

theorem renderMeasureStep_ghost (tonal : String → List String) (bs : List String)
    (sb : ℕ) (P : List ℕ) (es : List VexEntry) (b : ℕ) (h : ¬ b ∈ P)
    (hr : ¬ 0 < (getChordNotesVexFlow tonal (beatAt bs (sb + b))).length) :
    renderMeasureStep tonal bs sb (P, es) b = (P ++ [b], es ++ [VexEntry.ghost "q"]) := by
  unfold renderMeasureStep
  rw [if_neg h]
  dsimp only
  rw [if_neg hr]

theorem length_takeWhile_le {α : Type} (p : α → Bool) (l : List α) :
    (l.takeWhile p).length ≤ l.length := by
  induction l with
  | nil => simp
  | cons x xs ih =>
    rw [List.takeWhile_cons]
    split
    · simpa using Nat.succ_le_succ ih
    · simp

theorem emptyCountFrom_le (bs : List String) (sb b : ℕ) :
    emptyCountFrom bs sb b ≤ 3 - b := by
  unfold emptyCountFrom
  have h1 := length_takeWhile_le
    (fun c => isEmptyBeatName (beatAt bs (sb + c))) ((List.range 4).drop (b + 1))
  have h2 : ((List.range 4).drop (b + 1)).length = 4 - (b + 1) := by simp
  omega

theorem loop_eq_scan_aux (tonal : String → List String) (bs : List String) (sb : ℕ) :
    ∀ (n b c : ℕ) (es : List VexEntry), 4 - b ≤ n → b ≤ c → c ≤ 4 →
    ((List.range' b (4 - b)).foldl (renderMeasureStep tonal bs sb)
        (List.range c, es)).2 = es ++ specSpanScan tonal bs sb c := by
  intro n
  induction n with
  | zero =>
    intro b c es h1 h2 h3
    have hb4 : b = 4 := by omega
    subst hb4
    have hc4 : c = 4 := by omega
    subst hc4
    rw [specSpanScan_stop _ _ _ _ (by omega)]
    simp
  | succ n ih =>
    intro b c es h1 h2 h3
    by_cases hb : b < 4
    · have h4b : 4 - b = (4 - (b + 1)) + 1 := by omega
      rw [h4b, List.range'_succ, List.foldl_cons]
      by_cases hbc : b < c
      · rw [renderMeasureStep_skip _ _ _ _ _ _ (List.mem_range.mpr hbc)]
        exact ih (b + 1) c es (by omega) (by omega) h3
      · have hbceq : c = b := by omega
        subst hbceq
        have hmem : ¬ c ∈ List.range c := by simp
        have hkb := emptyCountFrom_le bs sb c
        by_cases hr : 0 < (getChordNotesVexFlow tonal (beatAt bs (sb + c))).length
        · rw [renderMeasureStep_note _ _ _ _ _ _ hmem hr]
          have hmin : min (emptyCountFrom bs sb c) 3 ≤ 3 - c :=
            le_trans (Nat.min_le_left _ _) hkb
          have hrange : List.range c ++
              (List.range (min (emptyCountFrom bs sb c) 3 + 1)).map (c + ·) =
              List.range (c + min (emptyCountFrom bs sb c) 3 + 1) := by
            rw [show c + min (emptyCountFrom bs sb c) 3 + 1 =
                c + (min (emptyCountFrom bs sb c) 3 + 1) from by omega]
            exact (List.range_add c (min (emptyCountFrom bs sb c) 3 + 1)).symm
          rw [hrange]
          have ihh := ih (c + 1) (c + min (emptyCountFrom bs sb c) 3 + 1)
            (es ++ [VexEntry.note (getChordNotesVexFlow tonal (beatAt bs (sb + c)))
              (noteDurations (min (emptyCountFrom bs sb c) 3))])
            (by omega) (by omega) (by omega)
          rw [ihh, specSpanScan_note _ _ _ _ hb hr]
          simp
        · rw [renderMeasureStep_ghost _ _ _ _ _ _ hmem hr]
          rw [show List.range c ++ [c] = List.range (c + 1) from (List.range_succ c).symm]
          have ihh := ih (c + 1) (c + 1) (es ++ [VexEntry.ghost "q"])
            (by omega) (by omega) (by omega)
          rw [ihh, specSpanScan_ghost _ _ _ _ hb hr]
          simp
    · have hb4 : b = 4 := by omega
      subst hb4
      have hc4 : c = 4 := by omega
      subst hc4
      rw [specSpanScan_stop _ _ _ _ (by omega)]
      simp

theorem renderMeasureNotes_eq_spec (tonal : String → List String) (bs : List String)
    (sb : ℕ) : renderMeasureNotes tonal bs sb = specSpanScan tonal bs sb 0 := by
  unfold renderMeasureNotes
  have h := loop_eq_scan_aux tonal bs sb 4 0 0 [] (by omega) (by omega) (by omega)
  simpa [List.range_eq_range'] using h

theorem durationSpan_noteDurations (k : ℕ) (hk : k ≤ 3) :
    durationSpan (noteDurations k) = k + 1 := by
  interval_cases k <;> rfl

theorem totalSpan_specSpanScan (tonal : String → List String) (bs : List String)
    (sb : ℕ) : ∀ (n c : ℕ), 4 - c ≤ n → c ≤ 4 →
    totalSpan (specSpanScan tonal bs sb c) = 4 - c := by
  intro n
  induction n with
  | zero =>
    intro c h1 h2
    have hc4 : c = 4 := by omega
    subst hc4
    rw [specSpanScan_stop _ _ _ _ (by omega)]
    rfl
  | succ n ih =>
    intro c h1 h2
    by_cases hc : c < 4
    · have hkb := emptyCountFrom_le bs sb c
      by_cases hr : 0 < (getChordNotesVexFlow tonal (beatAt bs (sb + c))).length
      · rw [specSpanScan_note _ _ _ _ hc hr]
        have hmin : min (emptyCountFrom bs sb c) 3 ≤ 3 - c :=
          le_trans (Nat.min_le_left _ _) hkb
        have ihh := ih (c + min (emptyCountFrom bs sb c) 3 + 1) (by omega) (by omega)
        have hdur := durationSpan_noteDurations (min (emptyCountFrom bs sb c) 3)
          (Nat.min_le_right _ _)
        simp only [totalSpan, List.map_cons, List.sum_cons, entrySpan] at ihh ⊢
        omega
      · rw [specSpanScan_ghost _ _ _ _ hc hr]
        have ihh := ih (c + 1) (by omega) (by omega)
        simp only [totalSpan, List.map_cons, List.sum_cons, entrySpan, durationSpan] at ihh ⊢
        omega
    · have hc4 : c = 4 := by omega
      subst hc4
      rw [specSpanScan_stop _ _ _ _ (by omega)]
      rfl


/-- C2, counterexample: the beat `" "` is a non-empty, non-`"-"` chord
name, so the claim assigns it a 4-beat whole-note span over the three
following empty beats; but the loop branches on the *resolved pitch
list*, which is empty for a whitespace-only name even when the external
lookup would resolve every name, so the code emits 4 independent 1-beat
ghosts instead. -/
theorem c2_whitespace_beat_counterexample :
    renderMeasureNotes (fun _ => ["C", "E", "G"]) [" ", "", "", ""] 0 =
      [VexEntry.ghost "q", VexEntry.ghost "q", VexEntry.ghost "q", VexEntry.ghost "q"] ∧
    " " ≠ "" ∧ " " ≠ "-" ∧
    getChordNotesVexFlow (fun _ => ["C", "E", "G"]) " " = [] :=
  ⟨rfl, by decide, by decide, rfl⟩

/-- C2, amended: with "sounding beat" corrected from "non-empty,
non-`-` name" to "name whose resolved pitch list is non-empty" (and
"empty beat" meaning empty/whitespace/`-` name), the loop is exactly the
claimed left-to-right scan: each resolving beat takes span
`min(emptyRun,3)+1` with duration code q/h/hd/w, every other uncovered
beat is an independent 1-beat ghost, the spans cover the measure's 4
beats with no gaps or overlaps (total span 4), and an all-empty measure
yields exactly 4 independent single-beat ghost placeholders. -/
theorem c2_duration_inference_amended (tonal : String → List String)
    (beatChords : List String) (startBeat : ℕ) :
    renderMeasureNotes tonal beatChords startBeat =
      specSpanScan tonal beatChords startBeat 0 ∧
    totalSpan (renderMeasureNotes tonal beatChords startBeat) = 4 ∧
    renderMeasureNotes tonal ["", "", "", ""] 0 =
      [VexEntry.ghost "q", VexEntry.ghost "q", VexEntry.ghost "q", VexEntry.ghost "q"] := by
  refine ⟨renderMeasureNotes_eq_spec tonal beatChords startBeat, ?_, rfl⟩
  rw [renderMeasureNotes_eq_spec]
  have h := totalSpan_specSpanScan tonal beatChords startBeat 4 0 (by omega) (by omega)
  simpa using h


/-- C1, counterexample: at row width 800, the staff renderer places beat 0
at x = 100 while the tablature renderer places it at x = 110.5 — a
10.5-unit discrepancy, far beyond float tolerance.  The claimed
cross-renderer identity of beat x-coordinates is false. -/
theorem c1_beat_x_counterexample :
    notesBeatCenterX 800 0 = 100 ∧ tabBeatX 800 0 = 221 / 2 ∧
    notesBeatCenterX 800 0 ≠ tabBeatX 800 0 ∧
    1 ≤ tabBeatX 800 0 - notesBeatCenterX 800 0 := by
  norm_num [notesBeatCenterX, tabBeatX]

/-- C1, amended: the staff renderer and the tablature renderer use
*different* beat-x formulas.  The tablature inset of the 12-unit label
column shifts every beat x by `12·(7 − 2·beatIndex)/8` relative to the
staff renderer's x for the same width and beat index, and this offset is
never zero, so the two renderers never agree on a beat's x-coordinate. -/
theorem c1_beat_x_amended (measureWidth : ℚ) (beatIndex : ℕ) :
    tabBeatX measureWidth beatIndex - notesBeatCenterX measureWidth beatIndex =
      12 * (7 - 2 * (beatIndex : ℚ)) / 8 ∧
    tabBeatX measureWidth beatIndex ≠ notesBeatCenterX measureWidth beatIndex := by
  have hdiff : tabBeatX measureWidth beatIndex - notesBeatCenterX measureWidth beatIndex =
      12 * (7 - 2 * (beatIndex : ℚ)) / 8 := by
    unfold tabBeatX notesBeatCenterX
    ring
  refine ⟨hdiff, fun heq => ?_⟩
  rw [heq, sub_self] at hdiff
  have h7 : (2 : ℚ) * (beatIndex : ℚ) = 7 := by
    field_simp at hdiff
    linarith
  have : 2 * beatIndex = 7 := by exact_mod_cast h7
  omega

/-- C3, failing input for the code_bug: for a row whose beats are all
empty, `generateTablatureHtml` returns the empty string — no string
lines at all — and `generateNotesHtml` likewise returns the empty
string, contradicting the claim (and the repository's own
"Empty Bars Rendering Fix" document) that the 5 staff lines and the
6 string lines are drawn regardless of data presence. -/
theorem c3_empty_row_no_structure :
    generateTablatureHtml ["", "", "", ""] [] 150 35 = "" ∧
    generateTablatureHtml (List.replicate 16 "") [] 800 65 = "" ∧
    (∀ (tonal : String → List String) (midi : String → Option ℤ),
      generateNotesHtml tonal midi (List.replicate 16 "") 800 85 = "") :=
  ⟨rfl, rfl, fun _ _ => rfl⟩

/-- C5, failing input for the code_bug: when the external lookup yields no
notes, the power-chord branch handles `"A5"` as claimed but mangles every
flat root: `"Eb5"` resolves to `[eb/3, e/3]` — E-flat plus **E**, not the
claimed `[Eb, Bb]` — because the captured root is uppercased to `"EB"`,
which misses the `'Eb'` key of the fifths table (whose flat entries are
therefore dead code) and falls back to `'E'`. -/
theorem c5_power_chord_flat_root_bug :
    getChordNotesVexFlow (fun _ => []) "A5" = ["a/3", "e/3"] ∧
    getChordNotesVexFlow (fun _ => []) "Eb5" = ["eb/3", "e/3"] ∧
    getChordNotesVexFlow (fun _ => []) "Eb5" ≠ ["eb/3", "bb/3"] ∧
    rootMatchUpper "Eb5".data = some ['E', 'B'] ∧
    getFifth "EB" = "E" ∧ getFifth "Eb" = "Bb" := by
  refine ⟨rfl, rfl, ?_, rfl, rfl, rfl⟩
  decide

/-- C7, counterexample: at input width 820 and 4 measures, the sum of the
non-first measure widths plus (first measure width − clef allowance 40)
is 760, which equals neither 800 (input width − 20 margin) nor 780
(internal `totalWidth` − 20): the claimed identity with the clef
allowance subtracted does not hold. -/
theorem c7_width_sum_counterexample :
    3 * svOtherMeasureWidth 820 4 + (svFirstMeasureWidth 820 4 - 40) = 760 ∧
    (760 : ℚ) ≠ 820 - 20 ∧ (760 : ℚ) ≠ svTotalWidth 820 - 20 := by
  norm_num [svOtherMeasureWidth, svFirstMeasureWidth, svTotalWidth]

/-- C7, amended: for measureCount ∈ {2,4} the measure widths already sum
— *without* subtracting the clef allowance — to the input width minus the
20-unit margin; only for measureCount = 1 does the identity require
subtracting the 40-unit clef allowance. -/
theorem c7_width_sum_amended (W : ℚ) (hW : 0 < W) :
    3 * svOtherMeasureWidth W 4 + svFirstMeasureWidth W 4 = W - 20 ∧
    1 * svOtherMeasureWidth W 2 + svFirstMeasureWidth W 2 = W - 20 ∧
    svFirstMeasureWidth W 1 - 40 = W - 20 := by
  unfold svOtherMeasureWidth svFirstMeasureWidth svTotalWidth
  refine ⟨?_, ?_, ?_⟩ <;> · push_cast; field_simp; try ring

/-- C7, witness at width 820. -/
theorem c7_width_sum_witness :
    3 * svOtherMeasureWidth 820 4 + svFirstMeasureWidth 820 4 = 820 - 20 ∧
    1 * svOtherMeasureWidth 820 2 + svFirstMeasureWidth 820 2 = 820 - 20 ∧
    svFirstMeasureWidth 820 1 - 40 = 820 - 20 :=
  c7_width_sum_amended 820 (by norm_num)

/-- C9, failing input for the code_bug: the layout loop performs no input
validation.  At width 0 (degenerate input) and 4 measures it silently
produces stave rectangles with *negative* widths — garbage coordinates —
and at 0 measures it silently produces an empty layout; no configuration
error is raised anywhere (for 1 measure the `otherMeasureWidth` divisor
`numMeasures − 1` is 0, a silent division by zero in JS). -/
theorem c9_degenerate_geometry_no_error :
    svStaves 0 4 = [(10, 35), (45, -55 / 3), (80 / 3, -55 / 3), (25 / 3, -55 / 3)] ∧
    svOtherMeasureWidth 0 4 < 0 ∧
    svStaves 0 0 = [] := by
  refine ⟨?_, by norm_num [svOtherMeasureWidth, svFirstMeasureWidth, svTotalWidth], rfl⟩
  norm_num [svStaves, svMeasureGeom, svFirstMeasureWidth, svOtherMeasureWidth,
    svTotalWidth, List.range_succ]

/-- Shared helper: the common input guard of both resolvers. -/
theorem resolverGuard_vex (tonal : String → List String) (s : String)
    (h : s = "" ∨ jsTrim s = "" ∨ s = "-") : getChordNotesVexFlow tonal s = [] := by
  unfold getChordNotesVexFlow
  rw [if_pos h]

theorem resolverGuard_print (tonal : String → List String) (midi : String → Option ℤ)
    (s : String) (h : s = "" ∨ jsTrim s = "" ∨ s = "-") :
    getChordNotes tonal midi s = [] := by
  unfold getChordNotes
  rw [if_pos h]

theorem length_take_map_le {α β : Type} (l : List α) (f : α → β) (n : ℕ) :
    ((l.take n).map f).length ≤ n := by
  simp only [List.length_map, List.length_take]
  exact Nat.min_le_left _ _

/-- C4: confirmed.  Both resolvers are total (the embedding has no failure
path, matching the TS `try/catch` that converts any exception into `[]`),
return at most 4 pitches for *every* input and *every* behaviour of the
external tonal lookup, and return `[]` for the empty string, any
whitespace-only string, and the sentinel `"-"`. -/
theorem c4_resolver_safety (tonal : String → List String) (midi : String → Option ℤ)
    (s : String) :
    (getChordNotesVexFlow tonal s).length ≤ 4 ∧
    (getChordNotes tonal midi s).length ≤ 4 ∧
    (jsTrim s = "" ∨ s = "-" →
      getChordNotesVexFlow tonal s = [] ∧ getChordNotes tonal midi s = []) := by
  have hguard : jsTrim s = "" ∨ s = "-" → (s = "" ∨ jsTrim s = "" ∨ s = "-") :=
    fun h => h.elim (fun h1 => Or.inr (Or.inl h1)) (fun h2 => Or.inr (Or.inr h2))
  refine ⟨?_, ?_, fun h => ⟨resolverGuard_vex tonal s (hguard h),
    resolverGuard_print tonal midi s (hguard h)⟩⟩
  · unfold getChordNotesVexFlow
    split
    · simp
    · dsimp only
      split
      · split
        · split
          · simp
          · split
            · simp
            · exact length_take_map_le _ _ _
        · simp
      · exact length_take_map_le _ _ _
  · unfold getChordNotes
    split
    · simp
    · dsimp only
      split
      · split
        · split
          · simp
          · exact le_trans (length_take_map_le _ _ _) (by norm_num)
        · simp
      · exact le_trans (length_take_map_le _ _ _) (by norm_num)

/-- C4, witness at the sentinel `"-"`. -/
theorem c4_resolver_safety_witness :
    getChordNotesVexFlow (fun _ => ["C", "E", "G"]) "-" = [] ∧
    getChordNotes (fun _ => ["C", "E", "G"]) (fun _ => none) "-" = [] :=
  (c4_resolver_safety (fun _ => ["C", "E", "G"]) (fun _ => none) "-").2.2 (Or.inr rfl)

/-- C6: confirmed.  The normalization pipelines make `"Dm (easy)"`,
`"A major"`, `"A minor"` resolve identically to `"Dm"`, `"A"`, `"Am"`
respectively, in both resolvers, for every behaviour of the external
tonal lookup and midi table. -/
theorem c6_normalization_equivalences (tonal : String → List String)
    (midi : String → Option ℤ) :
    getChordNotesVexFlow tonal "Dm (easy)" = getChordNotesVexFlow tonal "Dm" ∧
    getChordNotesVexFlow tonal "A major" = getChordNotesVexFlow tonal "A" ∧
    getChordNotesVexFlow tonal "A minor" = getChordNotesVexFlow tonal "Am" ∧
    getChordNotes tonal midi "Dm (easy)" = getChordNotes tonal midi "Dm" ∧
    getChordNotes tonal midi "A major" = getChordNotes tonal midi "A" ∧
    getChordNotes tonal midi "A minor" = getChordNotes tonal midi "Am" :=
  ⟨rfl, rfl, rfl, rfl, rfl, rfl⟩

/-- C8: confirmed.  A beat whose chord name is found in the lookup emits
exactly the cells of the *reversed* 6-element fingering array mapped to
the drawn lines top-to-bottom: the value on line `i` is entry `5 − i` of
the stored low-to-high array, and `["x","0","2","2","2","0"]` displays
top-to-bottom as `["0","2","2","2","0","x"]`. -/
theorem c8_tab_fingering_reversed :
    (∀ (chordsData : List ChordDataForTab) (cd : ChordDataForTab) (name : String)
       (mw sp : ℚ) (bi : ℕ),
       chordsData.find? (fun c => c.name = name) = some cd →
       ¬(name = "" ∨ jsTrim name = "" ∨ name = "-") →
       tabBeatGlyphs chordsData mw sp bi name =
         joinList ((displayFingeringOf cd.fingering).enum.map
           (fun q => tabFretCell (tabBeatX mw bi) sp q.1 q.2))) ∧
    (∀ (f : List String), f.length = 6 → ∀ i, i < 6 →
       (displayFingeringOf f).get? i = f.get? (5 - i)) ∧
    displayFingeringOf ["x", "0", "2", "2", "2", "0"] = ["0", "2", "2", "2", "0", "x"] := by
  refine ⟨?_, ?_, rfl⟩
  · intro chordsData cd name mw sp bi hfind hname
    unfold tabBeatGlyphs
    rw [if_neg hname, hfind]
  · intro f hf i hi
    unfold displayFingeringOf
    rw [List.get?_eq_getElem?, List.get?_eq_getElem?,
      List.getElem?_reverse (by omega), hf]

/-- C8, witness on the fingering of the claim\'s example. -/
theorem c8_tab_fingering_reversed_witness :
    tabBeatGlyphs [ChordDataForTab.mk "Am" ["x", "0", "2", "2", "2", "0"]] 150 (35 / 6) 0 "Am" =
      joinList ((displayFingeringOf ["x", "0", "2", "2", "2", "0"]).enum.map
        (fun q => tabFretCell (tabBeatX 150 0) (35 / 6) q.1 q.2)) ∧
    (displayFingeringOf ["x", "0", "2", "2", "2", "0"]).get? 0 =
      ["x", "0", "2", "2", "2", "0"].get? 5 :=
  ⟨c8_tab_fingering_reversed.1 [ChordDataForTab.mk "Am" ["x", "0", "2", "2", "2", "0"]]
     (ChordDataForTab.mk "Am" ["x", "0", "2", "2", "2", "0"]) "Am" 150 (35 / 6) 0
     (by decide) (by decide),
   c8_tab_fingering_reversed.2.1 ["x", "0", "2", "2", "2", "0"] rfl 0 (by decide)⟩

/-- C10: confirmed.  When `notes` is absent or the JSON parse fails, the
pages list falls back to `[]` and `generatePrintHtml` (a total function —
no exception path exists) still returns the complete document: full
template with the header, the chord-reference slot (empty for the empty
chord set, or the placeholder when diagrams are off) and an empty pages
container. -/
theorem c10_print_html_fallback (tonal : String → List String)
    (midi : String → Option ℤ) (parseJson : String → Option CompositionPages)
    (composition : Composition) (chordsData : List ChordData) (options : PrintOptions)
    (h : composition.notes = none ∨
         ∃ s, composition.notes = some s ∧ parseJson s = none) :
    generatePrintHtml tonal midi parseJson composition chordsData options =
      printDocTemplate (escapeHtml composition.title) (generatePrintStyles options)
        (generateHeaderHtml composition)
        (if options.includeChordDiagrams then ""
         else "<div class=\"chord-reference-placeholder\"></div>") "" := by
  have hp : parsePages parseJson composition.notes = [] := by
    rcases h with h | ⟨s, hs, hps⟩
    · rw [h]; rfl
    · simp [parsePages, hs, hps]
  unfold generatePrintHtml
  rw [hp]
  rfl

/-- C10, witness: a composition whose `notes` is unparseable JSON. -/
theorem c10_print_html_fallback_witness :
    generatePrintHtml (fun _ => []) (fun _ => none) (fun _ => none)
      (Composition.mk "T" none (GlobalSettings.mk "C" 120 none none) (some "not json")) []
      (PrintOptions.mk true true true PageSize.letter Orientation.portrait) =
    printDocTemplate (escapeHtml "T")
      (generatePrintStyles (PrintOptions.mk true true true PageSize.letter Orientation.portrait))
      (generateHeaderHtml
        (Composition.mk "T" none (GlobalSettings.mk "C" 120 none none) (some "not json")))
      "" "" :=
  c10_print_html_fallback _ _ _ _ _ _ (Or.inr ⟨"not json", rfl, rfl⟩)

end LCC
